import Mathlib

/-! ClusterLeaderCheck (cmd/cluster_leader_check.go)

A shallow embedding of the `cluster` health check of dcos-checks and the
properties of its dispatcher `Run` and of its three probes.

Conventions of the embedding:

* a Go `error` is `Option GoError`, `none` being `nil`;
* Go `int` values (status codes, HTTP status, port) are `Int`; no arithmetic is
  performed on them, only comparison with constants;
* the effects of the program (one DNS lookup, one HTTP request) are made
  explicit: every method takes a `State` and returns the `State` after it, the
  state holding the checker object behind the receiver pointer and the log of
  the external calls performed so far;
* what the outside world answers is an `Env`: the answer of the resolver, the
  answer of the HTTP facility and the order in which `range validArgs` yields
  the keys of the map (Go leaves that order unspecified).
-/

namespace DcosChecks

/-! ## Errors -/

/-- Non-nil Go error values that can reach this file: an error handed back by
the resolver or by the HTTP facility (`external`), the value of `fmt.Errorf`
(`errorf`), the value of `errors.New` (`fundamental`) and the value of
`errors.Wrapf` on a non-nil cause (`withMessage`). -/
inductive GoError where
  | external (text : String)
  | errorf (text : String)
  | fundamental (text : String)
  | withMessage (cause : GoError) (msg : String)
deriving DecidableEq, Repr

/-- The `Error()` method: the text of an error. A wrapped error prints its
message, a colon and the text of its cause. -/
def GoError.Error : GoError → String
  | .external text => text
  | .errorf text => text
  | .fundamental text => text
  | .withMessage cause msg => msg ++ ": " ++ cause.Error

/-- The `errors.Wrapf(err, msg)` of github.com/pkg/errors: `nil` when `err` is
`nil`, otherwise an error carrying `msg` whose cause is `err`. -/
def Wrapf : Option GoError → String → Option GoError
  | none, _ => none
  | some e, msg => some (.withMessage e msg)

/-- The `errors.New(msg)` of github.com/pkg/errors. -/
def errorsNew (msg : String) : Option GoError := some (.fundamental msg)

/-- The `fmt.Errorf` on an already formatted text. -/
def fmtErrorf (text : String) : Option GoError := some (.errorf text)

/-- Elements separated by one blank. -/
def joinSpace : List String → String
  | [] => ""
  | [key] => key
  | key :: rest => key ++ " " ++ joinSpace rest

/-- The `%v` verb on a `[]string`: the elements separated by blanks, between
square brackets. -/
def fmtV (keys : List String) : String := "[" ++ joinSpace keys ++ "]"

/-! ## Declarations used by the file and made elsewhere in package cmd -/

/-- Constants of package cmd that the file uses and does not declare: the three
status codes and the secure admin router port. They are left as parameters. -/
structure Constants where
  statusOK : Int
  statusFailure : Int
  statusUnknown : Int
  adminrouterMasterHTTPSPort : Int
deriving DecidableEq, Repr

/-- Modelled from the spec: the declaration of `CLIConfigFlags` is not in the
file. The spec says the configuration carries at least a force-TLS flag; `Run`
reads `ForceTLS` only, `others` stands for every remaining flag. -/
structure CLIConfigFlags where
  ForceTLS : Bool
  others : Nat
deriving DecidableEq, Repr

/-- Modelled from the spec: the declaration of `URLFields` is not in the file.
The spec says host, path and an optional port override; the zero port is the
value of a field left out of the composite literal. -/
structure URLFields where
  host : String
  path : String
  port : Int
deriving DecidableEq, Repr

/-! ## Data model -/

/-- The map `validArgs`, as the list of its entries in the order of the
declaration. -/
def validArgs : List (String × Bool) :=
  [("mesos-leader", true), ("marathon-leader", true), ("metronome-leader", true)]

/-- ClusterLeaderCheck verifies dc/os is up. -/
structure ClusterLeaderCheck where
  Name : String
  Args : List String
deriving DecidableEq, Repr

/-- NewClusterLeaderCheck returns an initialized instance. -/
def NewClusterLeaderCheck (name : String) (args : List String) : ClusterLeaderCheck :=
  { Name := name, Args := args }

/-- ID returns a unique check identifier. -/
def ClusterLeaderCheck.ID (cs : ClusterLeaderCheck) : String := cs.Name

/-- The (message, status, error) triple every method returns. -/
abbrev Result := String × Int × Option GoError

/-- One call that leaves the process. -/
inductive ExtCall where
  | lookupHost (hostname : String)
  | httpRequest (cfg : CLIConfigFlags) (urlOpt : URLFields)
deriving DecidableEq, Repr

/-- What the outside world answers during one run. -/
structure Env where
  /-- the keys of `validArgs` in the order `range` yields them in this run -/
  rangeValidArgs : List String
  /-- the answer of `net.LookupHost` -/
  LookupHost : String → List String × Option GoError
  /-- the answer of the HTTP facility: status code, body, error -/
  HTTPRequest : CLIConfigFlags → URLFields → Int × String × Option GoError

/-- The order of `range validArgs` is some order of the keys of the map. -/
def Env.WellFormed (env : Env) : Prop :=
  env.rangeValidArgs.Perm (validArgs.map Prod.fst)

/-- The checker behind the receiver pointer and the log of external calls. -/
structure State where
  cs : ClusterLeaderCheck
  calls : List ExtCall
deriving DecidableEq, Repr

/-! ## External calls -/

/-- The call `net.LookupHost(hostname)`: logged, answered by the environment. -/
def netLookupHost (env : Env) (hostname : String) (st : State) :
    (List String × Option GoError) × State :=
  (env.LookupHost hostname, { st with calls := st.calls ++ [ExtCall.lookupHost hostname] })

/-- The call `HTTPRequest(cfg, urlOpt)`: logged, answered by the environment. -/
def HTTPRequest (env : Env) (cfg : CLIConfigFlags) (urlOpt : URLFields) (st : State) :
    (Int × String × Option GoError) × State :=
  (env.HTTPRequest cfg urlOpt, { st with calls := st.calls ++ [ExtCall.httpRequest cfg urlOpt] })

/-! ## The probes -/

/-- MesosLeader resolves leader.mesos. -/
def MesosLeader (env : Env) (k : Constants) (hostname : String) (st : State) :
    Result × State :=
  let r := netLookupHost env hostname st
  let mesosIP := r.1.1
  let err := r.1.2
  if err ≠ none then
    (("", k.statusFailure, Wrapf err "LookupHost failed"), r.2)
  else if mesosIP.length = 0 then
    (("", k.statusFailure, Wrapf err "LookupHost did not return any address"), r.2)
  else
    (("", k.statusOK, none), r.2)

/-- MarathonLeader resolves /service/marathon/v2/leader. -/
def MarathonLeader (env : Env) (k : Constants) (cfg : CLIConfigFlags) (urlOpt : URLFields)
    (st : State) : Result × State :=
  let r := HTTPRequest env cfg urlOpt st
  let status := r.1.1
  let err := r.1.2.2
  if err ≠ none then
    (("", k.statusFailure, Wrapf err "HTTP request error"), r.2)
  else if status = 200 then
    (("", k.statusOK, none), r.2)
  else if status = 500 then
    (("", k.statusFailure, errorsNew "status 500"), r.2)
  else
    (("", k.statusUnknown, errorsNew "Unable to run the check"), r.2)

/-- MetronomeLeader checks results of /service/metronome/v1/jobs. -/
def MetronomeLeader (env : Env) (k : Constants) (cfg : CLIConfigFlags) (urlOpt : URLFields)
    (st : State) : Result × State :=
  let r := HTTPRequest env cfg urlOpt st
  let status := r.1.1
  let err := r.1.2.2
  if err ≠ none then
    (("", k.statusFailure, Wrapf err "HTTP request error"), r.2)
  else if status = 200 then
    (("", k.statusOK, none), r.2)
  else if status = 500 then
    (("", k.statusFailure, errorsNew "status 500"), r.2)
  else
    (("", k.statusUnknown, errorsNew "Unable to run the check"), r.2)

/-! ## The dispatcher -/

/-- The loop `for key := range validArgs { keys = append(keys, key) }`. -/
def collectKeys (env : Env) : List String :=
  env.rangeValidArgs.foldl (fun keys key => keys ++ [key]) []

/-- The loop `for _, arg := range args { switch arg ... }` of `Run`: `some` is a
`return` from inside the loop, `none` is the loop running to its end. -/
def runLoop (env : Env) (k : Constants) (cfg : CLIConfigFlags) :
    List String → State → Option Result × State
  | [], st => (none, st)
  | arg :: rest, st =>
    if arg = "mesos-leader" then
      let r := MesosLeader env k "leader.mesos" st
      (some r.1, r.2)
    else if arg = "marathon-leader" then
      let portM : Int := if cfg.ForceTLS then k.adminrouterMasterHTTPSPort else 0
      let r := MarathonLeader env k cfg
        { host := "leader.mesos", path := "/service/marathon/v2/leader", port := portM } st
      (some r.1, r.2)
    else if arg = "metronome-leader" then
      let r := MetronomeLeader env k cfg
        { host := "leader.mesos", path := "/service/metronome/v1/jobs", port := 0 } st
      (some r.1, r.2)
    else
      runLoop env k cfg rest st

/-- Run the cluster check. The context argument is never read and is left out. -/
def Run (env : Env) (k : Constants) (cfg : CLIConfigFlags) (st : State) : Result × State :=
  let args := st.cs.Args
  let keys := collectKeys env
  if args.length = 0 then
    (("", k.statusFailure, fmtErrorf ("No args provided, valid args " ++ fmtV keys)), st)
  else
    match runLoop env k cfg args st with
    | (some res, st1) => (res, st1)
    | (none, st1) =>
      (("", k.statusFailure, fmtErrorf ("Option not supported, valid args " ++ fmtV keys)), st1)

/-! ## Vocabulary of the specification -/

/-- The three names the `switch` of `Run` has a case for. -/
def recognized (arg : String) : Prop :=
  arg = "mesos-leader" ∨ arg = "marathon-leader" ∨ arg = "metronome-leader"

instance (arg : String) : Decidable (recognized arg) := by
  unfold recognized; infer_instance

/-- A text mentions a name when the name occurs in it. -/
def mentions (text name : String) : Prop :=
  ∃ before after : String, text = before ++ name ++ after

/-- The URL descriptor `Run` builds for marathon-leader. -/
def marathonURL (k : Constants) (cfg : CLIConfigFlags) : URLFields :=
  { host := "leader.mesos", path := "/service/marathon/v2/leader",
    port := if cfg.ForceTLS then k.adminrouterMasterHTTPSPort else 0 }

/-- The URL descriptor `Run` builds for metronome-leader. -/
def metronomeURL : URLFields :=
  { host := "leader.mesos", path := "/service/metronome/v1/jobs", port := 0 }

/-! ## Concrete inputs used to evaluate the definitions -/

/-- One admissible choice of the constants of package cmd. -/
def sampleConstants : Constants :=
  { statusOK := 0, statusFailure := 2, statusUnknown := 3, adminrouterMasterHTTPSPort := 443 }

/-- An outside world where the resolver finds one address and the HTTP facility
answers 200 on the secure port and 500 elsewhere. -/
def envUp : Env :=
  { rangeValidArgs := ["marathon-leader", "mesos-leader", "metronome-leader"],
    LookupHost := fun _ => (["10.0.0.1"], none),
    HTTPRequest := fun _ urlOpt => (if urlOpt.port = 443 then 200 else 500, "body", none) }

/-- An outside world where the resolver answers no address and no error and the
HTTP facility fails to connect. -/
def envNoAddress : Env :=
  { rangeValidArgs := ["metronome-leader", "marathon-leader", "mesos-leader"],
    LookupHost := fun _ => ([], none),
    HTTPRequest := fun _ _ => (0, "", some (GoError.external "connection refused")) }

/-! ## Lemmas -/

theorem foldl_snoc (keys acc : List String) :
    keys.foldl (fun ks key => ks ++ [key]) acc = acc ++ keys := by
  induction keys generalizing acc with
  | nil => simp
  | cons key rest ih => simp [List.foldl_cons, ih]

theorem collectKeys_eq (env : Env) : collectKeys env = env.rangeValidArgs := by
  simp [collectKeys, foldl_snoc]

theorem envUp_wellFormed : envUp.WellFormed := by
  unfold Env.WellFormed envUp validArgs
  decide

theorem mem_range_of_wellFormed (env : Env) (hwf : env.WellFormed) (name : String)
    (hname : recognized name) : name ∈ env.rangeValidArgs := by
  rw [hwf.mem_iff]
  rcases hname with h | h | h <;> subst h <;> simp [validArgs]

theorem mentions_joinSpace (keys : List String) (name : String) (hmem : name ∈ keys) :
    mentions (joinSpace keys) name := by
  induction keys with
  | nil => cases hmem
  | cons key rest ih =>
    cases rest with
    | nil =>
      have hk : name = key := by simpa using hmem
      subst hk
      exact ⟨"", "", by simp [joinSpace]⟩
    | cons key2 rest2 =>
      rcases List.mem_cons.mp hmem with hk | hk
      · subst hk
        exact ⟨"", " " ++ joinSpace (key2 :: rest2), by simp [joinSpace, String.append_assoc]⟩
      · obtain ⟨before, after, hba⟩ := ih hk
        refine ⟨key ++ " " ++ before, after, ?_⟩
        have hstep : joinSpace (key :: key2 :: rest2) = key ++ " " ++ joinSpace (key2 :: rest2) := by
          simp [joinSpace]
        rw [hstep, hba]
        simp [String.append_assoc]

theorem mentions_valid_args_text (env : Env) (hwf : env.WellFormed) (lead name : String)
    (hname : recognized name) : mentions (lead ++ fmtV env.rangeValidArgs) name := by
  obtain ⟨before, after, hba⟩ :=
    mentions_joinSpace env.rangeValidArgs name (mem_range_of_wellFormed env hwf name hname)
  refine ⟨lead ++ "[" ++ before, after ++ "]", ?_⟩
  simp [fmtV, hba, String.append_assoc]

theorem runLoop_skip (env : Env) (k : Constants) (cfg : CLIConfigFlags)
    (pre rest : List String) (st : State) (hpre : ∀ s ∈ pre, ¬ recognized s) :
    runLoop env k cfg (pre ++ rest) st = runLoop env k cfg rest st := by
  induction pre with
  | nil => rfl
  | cons arg pre ih =>
    have harg := hpre arg (List.mem_cons_self _ _)
    simp only [recognized, not_or] at harg
    simp only [List.cons_append, runLoop, if_neg harg.1, if_neg harg.2.1, if_neg harg.2.2]
    exact ih (fun s hs => hpre s (List.mem_cons_of_mem _ hs))

theorem runLoop_unrecognized (env : Env) (k : Constants) (cfg : CLIConfigFlags)
    (args : List String) (st : State) (hall : ∀ s ∈ args, ¬ recognized s) :
    runLoop env k cfg args st = (none, st) := by
  have h := runLoop_skip env k cfg args [] st hall
  simpa [runLoop] using h

theorem split_first_recognized (args : List String) (hex : ∃ a ∈ args, recognized a) :
    ∃ pre name post, args = pre ++ name :: post ∧ (∀ s ∈ pre, ¬ recognized s) ∧
      recognized name := by
  induction args with
  | nil => obtain ⟨a, ha, _⟩ := hex; cases ha
  | cons arg rest ih =>
    by_cases harg : recognized arg
    · exact ⟨[], arg, rest, rfl, by simp, harg⟩
    · have hrest : ∃ a ∈ rest, recognized a := by
        obtain ⟨a, ha, hra⟩ := hex
        rcases List.mem_cons.mp ha with h | h
        · subst h; exact absurd hra harg
        · exact ⟨a, h, hra⟩
      obtain ⟨pre, name, post, hsplit, hpre, hname⟩ := ih hrest
      refine ⟨arg :: pre, name, post, by simp [hsplit], ?_, hname⟩
      intro s hs
      rcases List.mem_cons.mp hs with h | h
      · subst h; exact harg
      · exact hpre s h

/-- What `Run` does once the first recognized name is known: the loop returns
the result of the probe of that name, on the state `Run` was called with. -/
theorem Run_dispatch (env : Env) (k : Constants) (cfg : CLIConfigFlags) (st : State)
    (pre post : List String) (name : String) (hpre : ∀ s ∈ pre, ¬ recognized s)
    (hargs : st.cs.Args = pre ++ name :: post) :
    (name = "mesos-leader" → Run env k cfg st = MesosLeader env k "leader.mesos" st) ∧
    (name = "marathon-leader" →
      Run env k cfg st = MarathonLeader env k cfg (marathonURL k cfg) st) ∧
    (name = "metronome-leader" →
      Run env k cfg st = MetronomeLeader env k cfg metronomeURL st) := by
  have hlen : ¬ ((pre ++ name :: post).length = 0) := by simp
  have hrun : Run env k cfg st =
      match runLoop env k cfg (name :: post) st with
      | (some res, st1) => (res, st1)
      | (none, st1) =>
        (("", k.statusFailure,
          fmtErrorf ("Option not supported, valid args " ++ fmtV (collectKeys env))), st1) := by
    simp only [Run, hargs, if_neg hlen, runLoop_skip env k cfg pre (name :: post) st hpre]
  refine ⟨?_, ?_, ?_⟩
  · intro h
    subst h
    rw [hrun]
    simp [runLoop]
  · intro h
    subst h
    rw [hrun]
    simp [runLoop, marathonURL]
  · intro h
    subst h
    rw [hrun]
    simp [runLoop, metronomeURL]

theorem Run_unrecognized (env : Env) (k : Constants) (cfg : CLIConfigFlags) (st : State)
    (hne : st.cs.Args ≠ []) (hall : ∀ s ∈ st.cs.Args, ¬ recognized s) :
    Run env k cfg st =
      (("", k.statusFailure,
        fmtErrorf ("Option not supported, valid args " ++ fmtV env.rangeValidArgs)), st) := by
  have hlen : ¬ (st.cs.Args.length = 0) := by
    simpa [List.length_eq_zero] using hne
  simp only [Run, if_neg hlen, runLoop_unrecognized env k cfg st.cs.Args st hall, collectKeys_eq]

theorem Run_no_args (env : Env) (k : Constants) (cfg : CLIConfigFlags) (st : State)
    (hargs : st.cs.Args = []) :
    Run env k cfg st =
      (("", k.statusFailure,
        fmtErrorf ("No args provided, valid args " ++ fmtV env.rangeValidArgs)), st) := by
  simp [Run, hargs, collectKeys_eq]

theorem MesosLeader_state (env : Env) (k : Constants) (hostname : String) (st : State) :
    (MesosLeader env k hostname st).2 =
      { st with calls := st.calls ++ [ExtCall.lookupHost hostname] } := by
  unfold MesosLeader netLookupHost
  simp only []
  split_ifs <;> rfl

theorem MarathonLeader_state (env : Env) (k : Constants) (cfg : CLIConfigFlags)
    (urlOpt : URLFields) (st : State) :
    (MarathonLeader env k cfg urlOpt st).2 =
      { st with calls := st.calls ++ [ExtCall.httpRequest cfg urlOpt] } := by
  unfold MarathonLeader HTTPRequest
  simp only []
  split_ifs <;> rfl

theorem MetronomeLeader_state (env : Env) (k : Constants) (cfg : CLIConfigFlags)
    (urlOpt : URLFields) (st : State) :
    (MetronomeLeader env k cfg urlOpt st).2 =
      { st with calls := st.calls ++ [ExtCall.httpRequest cfg urlOpt] } := by
  unfold MetronomeLeader HTTPRequest
  simp only []
  split_ifs <;> rfl

theorem MesosLeader_result_congr (env1 env2 : Env) (k : Constants) (hostname : String)
    (st1 st2 : State) (herr : (env1.LookupHost hostname).2 = (env2.LookupHost hostname).2)
    (hlen : (env1.LookupHost hostname).1 = [] ↔ (env2.LookupHost hostname).1 = []) :
    (MesosLeader env1 k hostname st1).1 = (MesosLeader env2 k hostname st2).1 := by
  unfold MesosLeader netLookupHost
  simp only [herr, List.length_eq_zero, hlen]
  split_ifs <;> rfl

theorem MarathonLeader_result_congr (env1 env2 : Env) (k : Constants) (cfg : CLIConfigFlags)
    (urlOpt : URLFields) (st1 st2 : State)
    (hstatus : (env1.HTTPRequest cfg urlOpt).1 = (env2.HTTPRequest cfg urlOpt).1)
    (herr : (env1.HTTPRequest cfg urlOpt).2.2 = (env2.HTTPRequest cfg urlOpt).2.2) :
    (MarathonLeader env1 k cfg urlOpt st1).1 = (MarathonLeader env2 k cfg urlOpt st2).1 := by
  unfold MarathonLeader HTTPRequest
  simp only [herr, hstatus]
  split_ifs <;> rfl

theorem MetronomeLeader_result_congr (env1 env2 : Env) (k : Constants) (cfg : CLIConfigFlags)
    (urlOpt : URLFields) (st1 st2 : State)
    (hstatus : (env1.HTTPRequest cfg urlOpt).1 = (env2.HTTPRequest cfg urlOpt).1)
    (herr : (env1.HTTPRequest cfg urlOpt).2.2 = (env2.HTTPRequest cfg urlOpt).2.2) :
    (MetronomeLeader env1 k cfg urlOpt st1).1 = (MetronomeLeader env2 k cfg urlOpt st2).1 := by
  unfold MetronomeLeader HTTPRequest
  simp only [herr, hstatus]
  split_ifs <;> rfl

/-- The log of external calls after `Run`, once the first recognized name is
known: one call more, the one of the probe of that name. -/
theorem Run_dispatch_calls (env : Env) (k : Constants) (cfg : CLIConfigFlags) (st : State)
    (pre post : List String) (name : String) (hpre : ∀ s ∈ pre, ¬ recognized s)
    (hname : recognized name) (hargs : st.cs.Args = pre ++ name :: post) :
    (Run env k cfg st).2.cs = st.cs ∧
    ∃ call, (Run env k cfg st).2.calls = st.calls ++ [call] ∧
      (name = "mesos-leader" → call = ExtCall.lookupHost "leader.mesos") ∧
      (name = "marathon-leader" → call = ExtCall.httpRequest cfg (marathonURL k cfg)) ∧
      (name = "metronome-leader" → call = ExtCall.httpRequest cfg metronomeURL) := by
  obtain ⟨h1, h2, h3⟩ := Run_dispatch env k cfg st pre post name hpre hargs
  rcases hname with h | h | h
  · rw [h1 h, MesosLeader_state]
    subst h
    exact ⟨rfl, _, rfl, fun _ => rfl, fun hc => by simp at hc, fun hc => by simp at hc⟩
  · rw [h2 h, MarathonLeader_state]
    subst h
    exact ⟨rfl, _, rfl, fun hc => by simp at hc, fun _ => rfl, fun hc => by simp at hc⟩
  · rw [h3 h, MetronomeLeader_state]
    subst h
    exact ⟨rfl, _, rfl, fun hc => by simp at hc, fun hc => by simp at hc, fun _ => rfl⟩

/-! ## The dispatcher: properties -/

/-- C1: first match wins. When the argument list is `pre ++ name :: post` with no
recognized string in `pre` and `name` recognized, `Run` returns exactly what the
probe of `name` returns (result and state after): `MesosLeader "leader.mesos"`
for mesos-leader, `MarathonLeader` on the marathon URL for marathon-leader,
`MetronomeLeader` on the metronome URL for metronome-leader; and the result is
the same whatever follows `name` in the list. -/
theorem Run_first_match_wins (env : Env) (k : Constants) (cfg : CLIConfigFlags) (st : State)
    (pre post : List String) (name : String) (hpre : ∀ s ∈ pre, ¬ recognized s)
    (hname : recognized name) (hargs : st.cs.Args = pre ++ name :: post) :
    (name = "mesos-leader" → Run env k cfg st = MesosLeader env k "leader.mesos" st) ∧
    (name = "marathon-leader" →
      Run env k cfg st = MarathonLeader env k cfg
        { host := "leader.mesos", path := "/service/marathon/v2/leader",
          port := if cfg.ForceTLS then k.adminrouterMasterHTTPSPort else 0 } st) ∧
    (name = "metronome-leader" →
      Run env k cfg st = MetronomeLeader env k cfg
        { host := "leader.mesos", path := "/service/metronome/v1/jobs", port := 0 } st) ∧
    (∀ (post2 : List String) (st2 : State), st2.cs.Args = pre ++ name :: post2 →
      (Run env k cfg st2).1 = (Run env k cfg st).1) := by
  obtain ⟨h1, h2, h3⟩ := Run_dispatch env k cfg st pre post name hpre hargs
  refine ⟨h1, h2, h3, ?_⟩
  intro post2 st2 hargs2
  obtain ⟨g1, g2, g3⟩ := Run_dispatch env k cfg st2 pre post2 name hpre hargs2
  rcases hname with h | h | h
  · rw [h1 h, g1 h]
    exact MesosLeader_result_congr env env k _ st2 st rfl Iff.rfl
  · rw [h2 h, g2 h]
    exact MarathonLeader_result_congr env env k cfg _ st2 st rfl rfl
  · rw [h3 h, g3 h]
    exact MetronomeLeader_result_congr env env k cfg _ st2 st rfl rfl

/-- C1 at `["bogus", "mesos-leader"]`: the result is the one of
`MesosLeader "leader.mesos"`. -/
theorem Run_first_match_wins_witness :
    recognized "mesos-leader" ∧
    Run envUp sampleConstants { ForceTLS := false, others := 0 }
        { cs := NewClusterLeaderCheck "cluster" ["bogus", "mesos-leader"], calls := [] } =
      MesosLeader envUp sampleConstants "leader.mesos"
        { cs := NewClusterLeaderCheck "cluster" ["bogus", "mesos-leader"], calls := [] } :=
  ⟨by decide,
   (Run_first_match_wins envUp sampleConstants { ForceTLS := false, others := 0 }
      { cs := NewClusterLeaderCheck "cluster" ["bogus", "mesos-leader"], calls := [] }
      ["bogus"] [] "mesos-leader" (by decide) (by decide) rfl).1 rfl⟩

/-- C2: on the empty argument list, for every configuration, `Run` returns
status FAILURE and a non-nil error whose text mentions mesos-leader,
marathon-leader and metronome-leader; the state after is the state before, so
no DNS lookup and no HTTP request was made. -/
theorem Run_empty_args_fails (env : Env) (k : Constants) (cfg : CLIConfigFlags) (st : State)
    (hwf : env.WellFormed) (hargs : st.cs.Args = []) :
    ∃ e : GoError,
      Run env k cfg st = (("", k.statusFailure, some e), st) ∧
      (Run env k cfg st).2.calls = st.calls ∧
      mentions e.Error "mesos-leader" ∧
      mentions e.Error "marathon-leader" ∧
      mentions e.Error "metronome-leader" := by
  have hrun := Run_no_args env k cfg st hargs
  refine ⟨GoError.errorf ("No args provided, valid args " ++ fmtV env.rangeValidArgs),
    hrun, by rw [hrun], ?_, ?_, ?_⟩
  · exact mentions_valid_args_text env hwf _ _ (Or.inl rfl)
  · exact mentions_valid_args_text env hwf _ _ (Or.inr (Or.inl rfl))
  · exact mentions_valid_args_text env hwf _ _ (Or.inr (Or.inr rfl))

/-- C2 at a concrete world: no argument, forced TLS. -/
theorem Run_empty_args_fails_witness :
    envUp.WellFormed ∧
    ∃ e : GoError,
      Run envUp sampleConstants { ForceTLS := true, others := 0 }
          { cs := NewClusterLeaderCheck "cluster" [], calls := [] } =
        (("", sampleConstants.statusFailure, some e),
          { cs := NewClusterLeaderCheck "cluster" [], calls := [] }) ∧
      (Run envUp sampleConstants { ForceTLS := true, others := 0 }
          { cs := NewClusterLeaderCheck "cluster" [], calls := [] }).2.calls = [] ∧
      mentions e.Error "mesos-leader" ∧
      mentions e.Error "marathon-leader" ∧
      mentions e.Error "metronome-leader" :=
  ⟨envUp_wellFormed,
   Run_empty_args_fails envUp sampleConstants { ForceTLS := true, others := 0 }
     { cs := NewClusterLeaderCheck "cluster" [], calls := [] } envUp_wellFormed rfl⟩

/-- C3, as the code has it: on a non-empty argument list with no recognized
string, `Run` returns status FAILURE, makes no external call, and its error text
is "Option not supported, valid args " followed by the list of keys, which
mentions the three names; on the empty list, in the same world, the text is
"No args provided, valid args " followed by the same list of keys. The two
texts share the "valid args [...]" part and differ in their first words. -/
theorem Run_only_unrecognized (env : Env) (k : Constants) (cfg : CLIConfigFlags) (st : State)
    (hwf : env.WellFormed) (hne : st.cs.Args ≠ [])
    (hall : ∀ s ∈ st.cs.Args, ¬ recognized s) :
    Run env k cfg st =
      (("", k.statusFailure,
        some (GoError.errorf
          ("Option not supported, valid args " ++ fmtV env.rangeValidArgs))), st) ∧
    (Run env k cfg { st with cs := { st.cs with Args := [] } }).1 =
      ("", k.statusFailure,
        some (GoError.errorf ("No args provided, valid args " ++ fmtV env.rangeValidArgs))) ∧
    mentions ("Option not supported, valid args " ++ fmtV env.rangeValidArgs) "mesos-leader" ∧
    mentions ("Option not supported, valid args " ++ fmtV env.rangeValidArgs)
      "marathon-leader" ∧
    mentions ("Option not supported, valid args " ++ fmtV env.rangeValidArgs)
      "metronome-leader" := by
  refine ⟨Run_unrecognized env k cfg st hne hall, ?_, ?_, ?_, ?_⟩
  · rw [Run_no_args env k cfg _ rfl]
    rfl
  · exact mentions_valid_args_text env hwf _ _ (Or.inl rfl)
  · exact mentions_valid_args_text env hwf _ _ (Or.inr (Or.inl rfl))
  · exact mentions_valid_args_text env hwf _ _ (Or.inr (Or.inr rfl))

/-- C3 as the code has it, at `["bogus", "zookeeper-leader"]`. -/
theorem Run_only_unrecognized_witness :
    envUp.WellFormed ∧
    Run envUp sampleConstants { ForceTLS := false, others := 0 }
        { cs := NewClusterLeaderCheck "cluster" ["bogus", "zookeeper-leader"], calls := [] } =
      (("", 2,
        some (GoError.errorf
          "Option not supported, valid args [marathon-leader mesos-leader metronome-leader]")),
        { cs := NewClusterLeaderCheck "cluster" ["bogus", "zookeeper-leader"], calls := [] }) :=
  ⟨envUp_wellFormed,
   (Run_only_unrecognized envUp sampleConstants { ForceTLS := false, others := 0 }
      { cs := NewClusterLeaderCheck "cluster" ["bogus", "zookeeper-leader"], calls := [] }
      envUp_wellFormed (by decide) (by decide)).1⟩

/-- C3 as written fails: at `["bogus"]` the error is not the error of the empty
argument list; the first says "Option not supported", the second
"No args provided". -/
theorem Run_unrecognized_message_differs :
    (Run envUp sampleConstants { ForceTLS := false, others := 0 }
        { cs := NewClusterLeaderCheck "cluster" ["bogus"], calls := [] }).1 =
      ("", 2,
        some (GoError.errorf
          "Option not supported, valid args [marathon-leader mesos-leader metronome-leader]")) ∧
    (Run envUp sampleConstants { ForceTLS := false, others := 0 }
        { cs := NewClusterLeaderCheck "cluster" [], calls := [] }).1 =
      ("", 2,
        some (GoError.errorf
          "No args provided, valid args [marathon-leader mesos-leader metronome-leader]")) ∧
    (Run envUp sampleConstants { ForceTLS := false, others := 0 }
        { cs := NewClusterLeaderCheck "cluster" ["bogus"], calls := [] }).1.2.2 ≠
      (Run envUp sampleConstants { ForceTLS := false, others := 0 }
        { cs := NewClusterLeaderCheck "cluster" [], calls := [] }).1.2.2 := by
  refine ⟨by decide, by decide, by decide⟩

/-! ## The probes: properties -/

/-- C4: both HTTP probes classify the answer (status, body, err) of the HTTP
facility the same way. A non-nil err gives FAILURE with err wrapped under
"HTTP request error", whatever the status; with a nil err, 200 gives OK and a
nil error, 500 gives FAILURE with an error whose text is "status 500", every
other status gives UNKNOWN with the error "Unable to run the check". Another
body with the same status and err gives the same result. -/
theorem http_probes_classify
    (probe : Env → Constants → CLIConfigFlags → URLFields → State → Result × State)
    (hprobe : probe = MarathonLeader ∨ probe = MetronomeLeader)
    (env : Env) (k : Constants) (cfg : CLIConfigFlags) (urlOpt : URLFields) (st : State)
    (status : Int) (body : String) (err : Option GoError)
    (hresp : env.HTTPRequest cfg urlOpt = (status, body, err)) :
    (∀ e : GoError, err = some e →
      (probe env k cfg urlOpt st).1 =
        ("", k.statusFailure, some (GoError.withMessage e "HTTP request error"))) ∧
    (err = none → status = 200 → (probe env k cfg urlOpt st).1 = ("", k.statusOK, none)) ∧
    (err = none → status = 500 →
      ∃ e : GoError, (probe env k cfg urlOpt st).1 = ("", k.statusFailure, some e) ∧
        e.Error = "status 500") ∧
    (err = none → status ≠ 200 → status ≠ 500 →
      ∃ e : GoError, (probe env k cfg urlOpt st).1 = ("", k.statusUnknown, some e) ∧
        e.Error = "Unable to run the check") ∧
    (∀ (env2 : Env) (body2 : String), env2.HTTPRequest cfg urlOpt = (status, body2, err) →
      (probe env2 k cfg urlOpt st).1 = (probe env k cfg urlOpt st).1) := by
  have hcongr : ∀ (env2 : Env) (body2 : String),
      env2.HTTPRequest cfg urlOpt = (status, body2, err) →
      (probe env2 k cfg urlOpt st).1 = (probe env k cfg urlOpt st).1 := by
    intro env2 body2 hresp2
    rcases hprobe with h | h <;> subst h
    · exact MarathonLeader_result_congr env2 env k cfg urlOpt st st
        (by rw [hresp, hresp2]) (by rw [hresp, hresp2])
    · exact MetronomeLeader_result_congr env2 env k cfg urlOpt st st
        (by rw [hresp, hresp2]) (by rw [hresp, hresp2])
  refine ⟨?_, ?_, ?_, ?_, hcongr⟩
  · intro e he
    subst he
    rcases hprobe with h | h <;> subst h <;>
      simp [MarathonLeader, MetronomeLeader, HTTPRequest, hresp, Wrapf]
  · intro he hs
    subst he hs
    rcases hprobe with h | h <;> subst h <;>
      simp [MarathonLeader, MetronomeLeader, HTTPRequest, hresp]
  · intro he hs
    subst he hs
    refine ⟨GoError.fundamental "status 500", ?_, rfl⟩
    rcases hprobe with h | h <;> subst h <;>
      simp [MarathonLeader, MetronomeLeader, HTTPRequest, hresp, errorsNew]
  · intro he hs2 hs5
    subst he
    refine ⟨GoError.fundamental "Unable to run the check", ?_, rfl⟩
    rcases hprobe with h | h <;> subst h <;>
      simp [MarathonLeader, MetronomeLeader, HTTPRequest, hresp, errorsNew, hs2, hs5]

/-- C4 at a concrete answer: 200 on the secure port gives OK and a nil error. -/
theorem http_probes_classify_witness :
    envUp.HTTPRequest { ForceTLS := true, others := 0 }
        { host := "leader.mesos", path := "/service/marathon/v2/leader", port := 443 } =
      (200, "body", none) ∧
    (MarathonLeader envUp sampleConstants { ForceTLS := true, others := 0 }
        { host := "leader.mesos", path := "/service/marathon/v2/leader", port := 443 }
        { cs := NewClusterLeaderCheck "cluster" ["marathon-leader"], calls := [] }).1 =
      ("", 0, none) :=
  ⟨rfl,
   (http_probes_classify MarathonLeader (Or.inl rfl) envUp sampleConstants
      { ForceTLS := true, others := 0 }
      { host := "leader.mesos", path := "/service/marathon/v2/leader", port := 443 }
      { cs := NewClusterLeaderCheck "cluster" ["marathon-leader"], calls := [] }
      200 "body" none rfl).2.1 rfl rfl⟩

/-- C5: `MesosLeader` on the answer (addresses, err) of the resolver. A non-nil
err gives FAILURE (with err wrapped under "LookupHost failed"); a nil err with no
address gives FAILURE, and the probe does return there: the result is the empty
message, FAILURE and a nil error; a nil err with one address or more gives OK
and a nil error. Two answers with the same err that are both empty or both
non-empty give the same result, so no address reaches the result. -/
theorem MesosLeader_classify (env : Env) (k : Constants) (hostname : String) (st : State) :
    (∀ e : GoError, (env.LookupHost hostname).2 = some e →
      (MesosLeader env k hostname st).1 =
        ("", k.statusFailure, some (GoError.withMessage e "LookupHost failed"))) ∧
    ((env.LookupHost hostname).2 = none → (env.LookupHost hostname).1 = [] →
      (MesosLeader env k hostname st).1 = ("", k.statusFailure, none)) ∧
    ((env.LookupHost hostname).2 = none → (env.LookupHost hostname).1 ≠ [] →
      (MesosLeader env k hostname st).1 = ("", k.statusOK, none)) ∧
    (∀ env2 : Env, (env2.LookupHost hostname).2 = (env.LookupHost hostname).2 →
      ((env2.LookupHost hostname).1 = [] ↔ (env.LookupHost hostname).1 = []) →
      (MesosLeader env2 k hostname st).1 = (MesosLeader env k hostname st).1) := by
  refine ⟨?_, ?_, ?_, ?_⟩
  · intro e he
    simp [MesosLeader, netLookupHost, he, Wrapf]
  · intro he hnil
    simp [MesosLeader, netLookupHost, he, hnil, Wrapf]
  · intro he hne
    simp [MesosLeader, netLookupHost, he, hne]
  · intro env2 herr hlen
    exact MesosLeader_result_congr env2 env k hostname st st herr hlen

/-- C6: forced TLS changes the port of the marathon-leader request only. When
the first recognized argument is marathon-leader, the one call `Run` adds to
the log is an HTTP request for host "leader.mesos", path
"/service/marathon/v2/leader" and port `adminrouterMasterHTTPSPort` under
`ForceTLS`, port zero otherwise; when it is metronome-leader, the call is an HTTP
request for host "leader.mesos", path "/service/metronome/v1/jobs" and port
zero, whatever `ForceTLS` is. -/
theorem Run_request_url (env : Env) (k : Constants) (cfg : CLIConfigFlags) (st : State)
    (pre post : List String) (hpre : ∀ s ∈ pre, ¬ recognized s) :
    (st.cs.Args = pre ++ "marathon-leader" :: post →
      (Run env k cfg st).2.calls = st.calls ++ [ExtCall.httpRequest cfg
        { host := "leader.mesos", path := "/service/marathon/v2/leader",
          port := if cfg.ForceTLS then k.adminrouterMasterHTTPSPort else 0 }]) ∧
    (st.cs.Args = pre ++ "metronome-leader" :: post →
      (Run env k cfg st).2.calls = st.calls ++ [ExtCall.httpRequest cfg
        { host := "leader.mesos", path := "/service/metronome/v1/jobs", port := 0 }]) := by
  constructor
  · intro hargs
    rw [(Run_dispatch env k cfg st pre post _ hpre hargs).2.1 rfl, MarathonLeader_state]
    rfl
  · intro hargs
    rw [(Run_dispatch env k cfg st pre post _ hpre hargs).2.2 rfl, MetronomeLeader_state]
    rfl

/-- C6 at `["bogus", "marathon-leader", "metronome-leader"]` under forced TLS:
the request goes to port 443. -/
theorem Run_request_url_witness :
    (Run envUp sampleConstants { ForceTLS := true, others := 0 }
        { cs := NewClusterLeaderCheck "cluster" ["bogus", "marathon-leader", "metronome-leader"],
          calls := [] }).2.calls =
      [ExtCall.httpRequest { ForceTLS := true, others := 0 }
        { host := "leader.mesos", path := "/service/marathon/v2/leader", port := 443 }] :=
  (Run_request_url envUp sampleConstants { ForceTLS := true, others := 0 }
      { cs := NewClusterLeaderCheck "cluster" ["bogus", "marathon-leader", "metronome-leader"],
        calls := [] }
      ["bogus"] ["metronome-leader"] (by decide)).1 rfl

/-- C7 fails on the code: with `["mesos-leader"]`, when the resolver answers no
address and a nil error, `Run` returns status FAILURE together with a nil error,
because `errors.Wrapf` of a nil error is nil. -/
theorem Run_failure_with_nil_error (k : Constants) (cfg : CLIConfigFlags) (name : String)
    (calls : List ExtCall) :
    Run envNoAddress k cfg
        { cs := NewClusterLeaderCheck name ["mesos-leader"], calls := calls } =
      (("", k.statusFailure, none),
        { cs := NewClusterLeaderCheck name ["mesos-leader"],
          calls := calls ++ [ExtCall.lookupHost "leader.mesos"] }) := by
  simp [Run, runLoop, MesosLeader, netLookupHost, envNoAddress, Wrapf, NewClusterLeaderCheck]

/-! ## Determinism and effects -/

/-- C8: the status `Run` returns depends on the argument list, the configuration
and the answers of the resolver and of the HTTP facility only. Two runs with the
same arguments and configuration, in two worlds that answer alike, return the
same status, whatever the checker names, the logs before and the orders of
`range validArgs` are; and `Run` leaves `Name` and `Args` of the checker as they
were. -/
theorem Run_status_deterministic (k : Constants) (cfg : CLIConfigFlags) (env1 env2 : Env)
    (st1 st2 : State) (hargs : st1.cs.Args = st2.cs.Args)
    (hdns : env1.LookupHost "leader.mesos" = env2.LookupHost "leader.mesos")
    (hhttp : ∀ urlOpt : URLFields, env1.HTTPRequest cfg urlOpt = env2.HTTPRequest cfg urlOpt) :
    (Run env1 k cfg st1).1.2.1 = (Run env2 k cfg st2).1.2.1 ∧
    (Run env1 k cfg st1).2.cs.Name = st1.cs.Name ∧
    (Run env1 k cfg st1).2.cs.Args = st1.cs.Args := by
  by_cases hex : ∃ a ∈ st1.cs.Args, recognized a
  · obtain ⟨pre, name, post, hsplit, hpre, hname⟩ := split_first_recognized _ hex
    have hcs := (Run_dispatch_calls env1 k cfg st1 pre post name hpre hname hsplit).1
    obtain ⟨h1, h2, h3⟩ := Run_dispatch env1 k cfg st1 pre post name hpre hsplit
    obtain ⟨g1, g2, g3⟩ := Run_dispatch env2 k cfg st2 pre post name hpre (hargs ▸ hsplit)
    refine ⟨?_, by rw [hcs], by rw [hcs]⟩
    rcases hname with h | h | h
    · rw [h1 h, g1 h, MesosLeader_result_congr env1 env2 k _ st1 st2 (by rw [hdns])
        (by rw [hdns])]
    · rw [h2 h, g2 h, MarathonLeader_result_congr env1 env2 k cfg _ st1 st2 (by rw [hhttp])
        (by rw [hhttp])]
    · rw [h3 h, g3 h, MetronomeLeader_result_congr env1 env2 k cfg _ st1 st2 (by rw [hhttp])
        (by rw [hhttp])]
  · have hall : ∀ s ∈ st1.cs.Args, ¬ recognized s := fun s hs hr => hex ⟨s, hs, hr⟩
    by_cases hnil : st1.cs.Args = []
    · rw [Run_no_args env1 k cfg st1 hnil, Run_no_args env2 k cfg st2 (hargs ▸ hnil)]
      exact ⟨rfl, rfl, rfl⟩
    · rw [Run_unrecognized env1 k cfg st1 hnil hall,
        Run_unrecognized env2 k cfg st2 (hargs ▸ hnil) (hargs ▸ hall)]
      exact ⟨rfl, rfl, rfl⟩

/-- C8 at two worlds that answer alike and range over the map in two orders:
both runs on `["metronome-leader"]` return the same status. -/
theorem Run_status_deterministic_witness :
    (Run envNoAddress sampleConstants { ForceTLS := false, others := 0 }
        { cs := NewClusterLeaderCheck "first" ["metronome-leader"], calls := [] }).1.2.1 =
      (Run { envNoAddress with
              rangeValidArgs := ["mesos-leader", "metronome-leader", "marathon-leader"] }
        sampleConstants { ForceTLS := false, others := 0 }
        { cs := NewClusterLeaderCheck "second" ["metronome-leader"],
          calls := [ExtCall.lookupHost "leader.mesos"] }).1.2.1 :=
  (Run_status_deterministic sampleConstants { ForceTLS := false, others := 0 } envNoAddress
      { envNoAddress with
          rangeValidArgs := ["mesos-leader", "metronome-leader", "marathon-leader"] }
      { cs := NewClusterLeaderCheck "first" ["metronome-leader"], calls := [] }
      { cs := NewClusterLeaderCheck "second" ["metronome-leader"],
        calls := [ExtCall.lookupHost "leader.mesos"] }
      rfl rfl (fun _ => rfl)).1

/-- C9: `Run` adds exactly one external call to the log, the lookup of
"leader.mesos" or one HTTP request, when the argument list holds a recognized
name, and none when it holds none; what follows the first recognized name never
adds a call: the log is the one of the run on the list cut after that name. -/
theorem Run_external_calls (env : Env) (k : Constants) (cfg : CLIConfigFlags) (st : State) :
    ((∃ a ∈ st.cs.Args, recognized a) →
      ∃ call : ExtCall, (Run env k cfg st).2.calls = st.calls ++ [call] ∧
        (call = ExtCall.lookupHost "leader.mesos" ∨
          ∃ urlOpt : URLFields, call = ExtCall.httpRequest cfg urlOpt)) ∧
    ((∀ a ∈ st.cs.Args, ¬ recognized a) → (Run env k cfg st).2.calls = st.calls) ∧
    (∀ (pre post : List String) (name : String), (∀ s ∈ pre, ¬ recognized s) →
      recognized name → st.cs.Args = pre ++ name :: post →
      (Run env k cfg st).2.calls =
        (Run env k cfg { st with cs := { st.cs with Args := pre ++ [name] } }).2.calls) := by
  refine ⟨?_, ?_, ?_⟩
  · intro hex
    obtain ⟨pre, name, post, hsplit, hpre, hname⟩ := split_first_recognized _ hex
    obtain ⟨_, call, hcalls, c1, c2, c3⟩ :=
      Run_dispatch_calls env k cfg st pre post name hpre hname hsplit
    refine ⟨call, hcalls, ?_⟩
    rcases hname with h | h | h
    · exact Or.inl (c1 h)
    · exact Or.inr ⟨_, c2 h⟩
    · exact Or.inr ⟨_, c3 h⟩
  · intro hall
    by_cases hnil : st.cs.Args = []
    · rw [Run_no_args env k cfg st hnil]
    · rw [Run_unrecognized env k cfg st hnil hall]
  · intro pre post name hpre hname hargs
    obtain ⟨_, call, hcalls, c1, c2, c3⟩ :=
      Run_dispatch_calls env k cfg st pre post name hpre hname hargs
    obtain ⟨_, call2, hcalls2, d1, d2, d3⟩ :=
      Run_dispatch_calls env k cfg { st with cs := { st.cs with Args := pre ++ [name] } }
        pre [] name hpre hname rfl
    rw [hcalls, hcalls2]
    rcases hname with h | h | h
    · rw [c1 h, d1 h]
    · rw [c2 h, d2 h]
    · rw [c3 h, d3 h]

/-- C10: the two HTTP probes are one function: on every world, configuration,
URL descriptor and state, `MarathonLeader` and `MetronomeLeader` return the same
result and the same state after. -/
theorem MarathonLeader_eq_MetronomeLeader (env : Env) (k : Constants) (cfg : CLIConfigFlags)
    (urlOpt : URLFields) (st : State) :
    MarathonLeader env k cfg urlOpt st = MetronomeLeader env k cfg urlOpt st := rfl

end DcosChecks
